import Mathlib

/-!
Shallow embedding of `src/infra/terraform/lambda/cost_optimizer.py`.

The Python file is a Terraform `templatefile` input (it lives under
`infra/terraform/lambda/` and contains `${project_name}` placeholders in the
EC2/EBS tag filters and in the report header).  The Terraform configuration
that renders those placeholders is part of the repository but not under
`src/`, so, following the spec (sections 4.2, 4.3 and 6), the rendered
project name and environment label are modelled as explicit parameters
threaded to the functions that use them.

Numeric model: Python `Decimal` amounts are modelled by `ℚ` (the spec demands
exact decimal arithmetic; `Decimal`'s 28-significant-digit context is treated
as exact).  Python's `f"{x:.1f}"` / `f"{x:.2f}"` formatting on `Decimal`
rounds half-to-even, which `roundHalfEvenInt` reproduces.
-/

namespace CostOptimizer

/-- One filter entry sent to an inventory query, e.g.
`{'Name': 'tag:Project', 'Values': [project_name]}`. -/
structure Filter where
  name : String
  values : List String
  deriving DecidableEq, Repr

/-- An EC2 instance record as consumed by the analyzers:
`InstanceId`, `InstanceType`, and `SpotInstanceRequestId` (absent = `None`). -/
structure Instance where
  instanceId : String
  instanceType : String
  spotInstanceRequestId : Option String
  deriving DecidableEq, Repr

/-- An RDS instance record: `DBInstanceIdentifier`, `DBInstanceClass`, and the
optional `BackupRetentionPeriod` field (read with `.get(_, 0)` in the source). -/
structure DBInstance where
  dbInstanceIdentifier : String
  dbInstanceClass : String
  backupRetentionPeriod : Option Nat
  deriving DecidableEq, Repr

/-- An EBS volume record: `VolumeId` and `Size` in GB. -/
structure Volume where
  volumeId : String
  size : Nat
  deriving DecidableEq, Repr

/-- A recommendation dict.  The Python dicts carry a varying set of keys;
keys that are present in some recommendation types only are `Option` fields. -/
structure Recommendation where
  type : String
  resource : Option String := none
  current_type : Option String := none
  current_class : Option String := none
  current_retention : Option String := none
  size : Option String := none
  recommendation : String
  potential_savings : Option String := none
  deriving DecidableEq, Repr

/-- The cost-explorer client: one `get_cost_and_usage` call, returning
`ResultsByTime`, each a list of groups `(service, blended-cost amount)`.
A raised exception is the `.error` case. -/
structure CeClient where
  get_cost_and_usage : Except String (List (List (String × ℚ)))

/-- The EC2 client: `describe_instances` (grouped in reservations) and
`describe_volumes`, both taking the filter list the caller passes. -/
structure Ec2Client where
  describe_instances : List Filter → Except String (List (List Instance))
  describe_volumes : List Filter → Except String (List Volume)

/-- The RDS client: `describe_db_instances()` (no filters in the source). -/
structure RdsClient where
  describe_db_instances : Except String (List DBInstance)

/-- The SNS client: the outcome of a `publish` attempt. -/
structure SnsClient where
  publish : Except String Unit

/-- The environment-sourced configuration (`PROJECT_NAME`, `ENVIRONMENT`,
`SNS_TOPIC_ARN`) plus the `datetime.now()` timestamp string used in the
report header. -/
structure Config where
  project_name : String
  environment : String
  sns_topic_arn : String
  now : String

/-- A `publish` call as observed on the SNS topic: topic ARN, subject, message. -/
structure Publish where
  topicArn : String
  subject : String
  message : String
  deriving DecidableEq, Repr

/-- The JSON body of the handler response: either the success dict
(`message`, `total_cost`, `recommendations_count`) or the error dict. -/
inductive Body where
  | success (message : String) (total_cost : ℚ) (recommendations_count : Nat)
  | error (msg : String)
  deriving DecidableEq, Repr

/-- The handler's return value: `statusCode` and JSON `body`. -/
structure HandlerResult where
  statusCode : Nat
  body : Body
  deriving DecidableEq, Repr

/-- Python prefix test (`s.startswith(p)`). -/
def strStartsWith (s p : String) : Bool :=
  List.isPrefixOf p.toList s.toList

/-- Python substring containment (`sub in s`). -/
def strContains (s sub : String) : Bool :=
  (List.range (s.toList.length + 1)).any (fun i => List.isPrefixOf sub.toList (s.toList.drop i))

/-- `dict.get(key, Decimal('0'))` on the service-cost mapping, modelled as an
association list in dict insertion order. -/
def costGet (m : List (String × ℚ)) (k : String) : ℚ :=
  match m.find? (fun p => p.1 = k) with
  | some p => p.2
  | none => 0

/-- `service_costs[service] = service_costs.get(service, Decimal('0')) + cost`:
adds to an existing key in place (preserving its position, as a Python dict
does) or appends a new key at the end. -/
def dictInsertAdd (m : List (String × ℚ)) (k : String) (v : ℚ) : List (String × ℚ) :=
  match m with
  | [] => [(k, v)]
  | (k', v') :: rest =>
      if k' = k then (k', v' + v) :: rest else (k', v') :: dictInsertAdd rest k v

/-- The cost-aggregation loop of the handler (lines 51-59): fold over
`ResultsByTime` and each result's `Groups`, accumulating the per-service
mapping and the grand total. -/
def aggregate_costs (results : List (List (String × ℚ))) : List (String × ℚ) × ℚ :=
  results.foldl
    (fun acc result =>
      result.foldl (fun st g => (dictInsertAdd st.1 g.1 g.2, st.2 + g.2)) acc)
    ([], 0)

/-- Floor of a rational, computed on the numerator/denominator. -/
def qfloor (q : ℚ) : ℤ :=
  q.num.fdiv (q.den : ℤ)

/-- Round a rational to the nearest integer, ties to even — the rounding of
Python's fixed-point `format` on `Decimal` (ROUND_HALF_EVEN). -/
def roundHalfEvenInt (q : ℚ) : ℤ :=
  let f := qfloor q
  let r := q - (f : ℚ)
  if r < 1 / 2 then f
  else if 1 / 2 < r then f + 1
  else if f % 2 = 0 then f else f + 1

/-- `f"{q:.1f}"`: one decimal place, half-even. -/
def fmt1 (q : ℚ) : String :=
  let n := roundHalfEvenInt (q * 10)
  let s := if n < 0 then "-" else ""
  let m := n.natAbs
  s ++ toString (m / 10) ++ "." ++ toString (m % 10)

/-- `f"{q:.2f}"`: two decimal places, half-even. -/
def fmt2 (q : ℚ) : String :=
  let n := roundHalfEvenInt (q * 100)
  let s := if n < 0 then "-" else ""
  let m := n.natAbs
  let frac := m % 100
  let fracStr := if frac < 10 then "0" ++ toString frac else toString frac
  s ++ toString (m / 100) ++ "." ++ fracStr

/-- The filter list of the running-instances query in `analyze_ec2_costs`
(lines 104-107), with the `${project_name}` template placeholder rendered. -/
def runningInstancesFilters (project_name : String) : List Filter :=
  [⟨"instance-state-name", ["running"]⟩, ⟨"tag:Project", [project_name]⟩]

/-- The filter list of the stopped-instances query in `check_unused_resources`
(lines 208-211), with the `${project_name}` template placeholder rendered. -/
def stoppedInstancesFilters (project_name : String) : List Filter :=
  [⟨"instance-state-name", ["stopped"]⟩, ⟨"tag:Project", [project_name]⟩]

/-- The filter list of the available-volumes query in `check_unused_resources`
(lines 225-228), with the `${project_name}` template placeholder rendered. -/
def availableVolumesFilters (project_name : String) : List Filter :=
  [⟨"status", ["available"]⟩, ⟨"tag:Project", [project_name]⟩]

/-- The per-instance body of the loop in `analyze_ec2_costs` (lines 111-131):
the `m5.large`/`m5.xlarge` rightsizing check, then the spot-opportunity
check, each appending independently. -/
def ec2InstanceRecs (inst : Instance) : List Recommendation :=
  (if strStartsWith inst.instanceType "m5.large" || strStartsWith inst.instanceType "m5.xlarge" then
    [{ type := "EC2_RIGHTSIZING"
       resource := some inst.instanceId
       current_type := some inst.instanceType
       recommendation := "Consider downsizing to m5.medium if CPU utilization is consistently low"
       potential_savings := some "Up to 50% cost reduction" }]
  else []) ++
  (if inst.spotInstanceRequestId = none then
    [{ type := "EC2_SPOT_INSTANCES"
       resource := some inst.instanceId
       recommendation := "Consider using Spot instances for non-critical workloads"
       potential_savings := some "Up to 70% cost reduction" }]
  else [])

/-- `analyze_ec2_costs` (lines 94-136): if the EC2 service cost strictly
exceeds 100, query running instances; a query exception is caught and yields
the (empty) accumulated list. -/
def analyze_ec2_costs (project_name : String) (ec2_client : Ec2Client)
    (service_costs : List (String × ℚ)) : List Recommendation :=
  let ec2_cost := costGet service_costs "Amazon Elastic Compute Cloud - Compute"
  if ec2_cost > 100 then
    match ec2_client.describe_instances (runningInstancesFilters project_name) with
    | .error _ => []
    | .ok reservations => reservations.foldl (fun acc r => acc ++ r.foldl (fun a i => a ++ ec2InstanceRecs i) []) []
  else []

/-- The per-DB-instance body of the loop in `analyze_rds_costs` (lines
149-171): the `large`/`xlarge` substring rightsizing check, then the
backup-retention check (`.get('BackupRetentionPeriod', 0) > 7`). -/
def rdsInstanceRecs (db : DBInstance) : List Recommendation :=
  (if strContains db.dbInstanceClass "large" || strContains db.dbInstanceClass "xlarge" then
    [{ type := "RDS_RIGHTSIZING"
       resource := some db.dbInstanceIdentifier
       current_class := some db.dbInstanceClass
       recommendation := "Monitor CPU and memory utilization to determine if downsizing is possible"
       potential_savings := some "Up to 40% cost reduction" }]
  else []) ++
  (let backup_retention := db.backupRetentionPeriod.getD 0
   if backup_retention > 7 then
    [{ type := "RDS_BACKUP_OPTIMIZATION"
       resource := some db.dbInstanceIdentifier
       current_retention := some (toString backup_retention ++ " days")
       recommendation := "Consider reducing backup retention period if not required for compliance"
       potential_savings := some "Reduce backup storage costs" }]
  else [])

/-- `analyze_rds_costs` (lines 138-176): if the RDS service cost strictly
exceeds 50, list all DB instances (no project filter in the source); a query
exception is caught and yields the (empty) accumulated list. -/
def analyze_rds_costs (rds_client : RdsClient)
    (service_costs : List (String × ℚ)) : List Recommendation :=
  let rds_cost := costGet service_costs "Amazon Relational Database Service"
  if rds_cost > 50 then
    match rds_client.describe_db_instances with
    | .error _ => []
    | .ok db_instances => db_instances.foldl (fun acc db => acc ++ rdsInstanceRecs db) []
  else []

/-- `analyze_storage_costs` (lines 178-199): pure threshold checks on the
S3 and EBS service costs. -/
def analyze_storage_costs (service_costs : List (String × ℚ)) : List Recommendation :=
  let s3_cost := costGet service_costs "Amazon Simple Storage Service"
  let ebs_cost := costGet service_costs "Amazon Elastic Block Store"
  (if s3_cost > 20 then
    [{ type := "S3_LIFECYCLE_OPTIMIZATION"
       recommendation := "Implement S3 lifecycle policies to transition old objects to cheaper storage classes"
       potential_savings := some "Up to 60% on storage costs for infrequently accessed data" }]
  else []) ++
  (if ebs_cost > 30 then
    [{ type := "EBS_OPTIMIZATION"
       recommendation := "Review EBS volumes for unused or oversized volumes, consider gp3 over gp2"
       potential_savings := some "Up to 20% on EBS costs" }]
  else [])

/-- The recommendation appended per stopped instance (lines 216-221). -/
def stoppedInstanceRec (inst : Instance) : Recommendation :=
  { type := "UNUSED_EC2_INSTANCE"
    resource := some inst.instanceId
    recommendation := "Consider terminating long-stopped instances if no longer needed"
    potential_savings := some "Eliminate EBS storage costs" }

/-- The recommendation appended per unattached volume (lines 231-238).
`f"${float(Size) * 0.10:.2f}/month"` is modelled with exact arithmetic; for
integer sizes the binary-float product rounds to the same two decimals. -/
def volumeRec (v : Volume) : Recommendation :=
  { type := "UNATTACHED_EBS_VOLUME"
    resource := some v.volumeId
    size := some (toString v.size ++ " GB")
    recommendation := "Delete unattached EBS volumes if no longer needed"
    potential_savings := some ("$" ++ fmt2 ((v.size : ℚ) / 10) ++ "/month") }

/-- `check_unused_resources` (lines 201-243).  One `try` block wraps both
queries: an exception in the stopped-instances query leaves the list empty,
but an exception in the volumes query returns the stopped-instance
recommendations accumulated before it. -/
def check_unused_resources (project_name : String) (ec2_client : Ec2Client)
    ( _rds_client : RdsClient) : List Recommendation :=
  match ec2_client.describe_instances (stoppedInstancesFilters project_name) with
  | .error _ => []
  | .ok reservations =>
      let recs := reservations.foldl (fun acc r => acc ++ r.foldl (fun a i => a ++ [stoppedInstanceRec i]) []) []
      match ec2_client.describe_volumes (availableVolumesFilters project_name) with
      | .error _ => recs
      | .ok volumes => recs ++ volumes.foldl (fun a v => a ++ [volumeRec v]) []

/-- Python `str.title()` on a character list: a letter is uppercased when the
previous character is not a letter, lowercased otherwise; other characters
pass through. -/
def titleChars : List Char → Bool → List Char
  | [], _ => []
  | c :: cs, prevAlpha =>
      (if c.isAlpha then (if prevAlpha then c.toLower else c.toUpper) else c)
        :: titleChars cs c.isAlpha

/-- `rec['type'].replace('_', ' ').title()` (line 269). -/
def titleOfType (t : String) : String :=
  ⟨titleChars (t.toList.map (fun c => if c = '_' then ' ' else c)) false⟩

/-- One numbered recommendation block of the report (lines 268-274):
index line with the title-cased type, optional `Resource:` line, the
`Recommendation:` line, optional `Potential Savings:` line. -/
def recBlock (i : Nat) (rec : Recommendation) : String :=
  "\n" ++ toString i ++ ". " ++ titleOfType rec.type ++ "\n" ++
  (match rec.resource with
   | some r => "   Resource: " ++ r ++ "\n"
   | none => "") ++
  "   Recommendation: " ++ rec.recommendation ++ "\n" ++
  (match rec.potential_savings with
   | some s => "   Potential Savings: " ++ s ++ "\n"
   | none => "")

/-- `enumerate(recommendations, 1)` rendering of the recommendation list. -/
def recBlocksFrom (i : Nat) : List Recommendation → String
  | [] => ""
  | r :: rs => recBlock i r ++ recBlocksFrom (i + 1) rs

/-- Stable descending insertion by cost: an element moves ahead only of
strictly smaller costs, so equal costs keep their original (dict-iteration)
order — the semantics of `sorted(service_costs.items(), key=..., reverse=True)`. -/
def insertDesc (x : String × ℚ) : List (String × ℚ) → List (String × ℚ)
  | [] => [x]
  | y :: ys => if x.2 > y.2 then x :: y :: ys else y :: insertDesc x ys

/-- `sorted(service_costs.items(), key=lambda x: x[1], reverse=True)`
(line 259): a stable sort by cost descending. -/
def sortedByCostDesc (l : List (String × ℚ)) : List (String × ℚ) :=
  l.foldr insertDesc []

/-- One line of the top-services section (lines 261-263): the percentage is
`cost / total_cost * 100` when `total_cost > 0` and the integer `0`
otherwise, then formatted with one decimal place. -/
def serviceLine (total_cost : ℚ) (entry : String × ℚ) : String :=
  let percentage := if total_cost > 0 then entry.2 / total_cost * 100 else 0
  "  • " ++ entry.1 ++ ": $" ++ fmt2 entry.2 ++ " (" ++ fmt1 percentage ++ "%)\n"

/-- The top-5 service lines of the cost summary. -/
def topServiceLines (service_costs : List (String × ℚ)) (total_cost : ℚ) : List String :=
  ((sortedByCostDesc service_costs).take 5).map (serviceLine total_cost)

/-- `generate_cost_report` (lines 245-280).  Modelled from the spec for the
header's project/environment values: the source reads them from the Terraform
template (`${project_name}`, `${environment}`), rendered outside `src/`, so
they are explicit parameters here, as is the `datetime.now()` timestamp. -/
def generate_cost_report (project_name environment now : String)
    (service_costs : List (String × ℚ)) (total_cost : ℚ)
    (recommendations : List Recommendation) : String :=
  let header :=
    "\nCost Optimization Report for " ++ project_name ++ " (" ++ environment ++ ")\n" ++
    "Generated: " ++ now ++ "\n\n" ++
    "COST SUMMARY (Last 30 days):\n" ++
    "Total Cost: $" ++ fmt2 total_cost ++ "\n\n" ++
    "Top Services by Cost:\n"
  let summary := String.join (topServiceLines service_costs total_cost)
  let recSection :=
    if recommendations.isEmpty then
      "\nNo optimization recommendations found at this time.\n"
    else
      "\nOPTIMIZATION RECOMMENDATIONS (" ++ toString recommendations.length ++ " found):\n" ++
      recBlocksFrom 1 recommendations
  header ++ summary ++ recSection ++ "\nNext analysis scheduled in 7 days.\n"

/-- The subject line built in `send_notification` (line 285). -/
def notificationSubject (project_name environment : String) : String :=
  "Cost Optimization Report - " ++ project_name ++ " (" ++ environment ++ ")"

/-- `send_notification` (lines 282-295): the `publish` attempt it makes, and
whether the attempt succeeded (the exception is caught, so the outcome is
only logged and never propagated to the caller). -/
def send_notification (sns_client : SnsClient) (topic_arn report project_name environment : String) :
    List Publish × Bool :=
  ([⟨topic_arn, notificationSubject project_name environment, report⟩],
   match sns_client.publish with
   | .ok _ => true
   | .error _ => false)

/-- The combined recommendation list built by the handler (lines 62-67):
compute, database, storage, then unused-resource analyzer outputs. -/
def allRecommendations (cfg : Config) (ec2_client : Ec2Client) (rds_client : RdsClient)
    (service_costs : List (String × ℚ)) : List Recommendation :=
  analyze_ec2_costs cfg.project_name ec2_client service_costs ++
  analyze_rds_costs rds_client service_costs ++
  analyze_storage_costs service_costs ++
  check_unused_resources cfg.project_name ec2_client rds_client

/-- `handler` (lines 7-92), returning the response and the list of SNS
`publish` calls attempted.  A billing-query exception jumps to the
top-level `except`, which returns the 500 error body; otherwise costs are
aggregated, the four analyzers run, the report is generated, and the
notification is sent only when the recommendation list is non-empty. -/
def handler (cfg : Config) (ce_client : CeClient) (ec2_client : Ec2Client)
    (rds_client : RdsClient) (sns_client : SnsClient) : HandlerResult × List Publish :=
  match ce_client.get_cost_and_usage with
  | .error e => ({ statusCode := 500, body := .error e }, [])
  | .ok results =>
      let state := aggregate_costs results
      let recommendations := allRecommendations cfg ec2_client rds_client state.1
      let report := generate_cost_report cfg.project_name cfg.environment cfg.now
        state.1 state.2 recommendations
      let pubs :=
        if recommendations.isEmpty then []
        else (send_notification sns_client cfg.sns_topic_arn report
                cfg.project_name cfg.environment).1
      ({ statusCode := 200,
         body := .success "Cost optimization analysis completed" state.2 recommendations.length },
       pubs)

/-! ### Structural lemmas about the accumulation loops -/

theorem foldl_append_eq_join {α β : Type} (f : α → List β) (l : List α) (acc : List β) :
    l.foldl (fun a i => a ++ f i) acc = acc ++ (l.map f).flatten := by
  induction l generalizing acc with
  | nil => simp
  | cons x xs ih => simp [ih, List.append_assoc]

theorem map_singleton_join {α β : Type} (g : α → β) (l : List α) :
    (l.map (fun i => [g i])).flatten = l.map g := by
  induction l with
  | nil => rfl
  | cons x xs ih => simp [ih]

theorem nested_fold_eq_join {α β : Type} (f : α → List β) (rs : List (List α)) :
    rs.foldl (fun acc r => acc ++ r.foldl (fun a i => a ++ f i) []) [] =
      (rs.map (fun r => (r.map f).flatten)).flatten := by
  have h : (fun (r : List α) => r.foldl (fun a i => a ++ f i) []) =
      fun r => (r.map f).flatten := by
    funext r
    simpa using foldl_append_eq_join f r []
  calc rs.foldl (fun acc r => acc ++ r.foldl (fun a i => a ++ f i) []) []
      = [] ++ (rs.map (fun r => r.foldl (fun a i => a ++ f i) [])).flatten :=
        foldl_append_eq_join _ rs []
    _ = (rs.map (fun r => (r.map f).flatten)).flatten := by rw [h, List.nil_append]

theorem singleton_fold_eq_map {α β : Type} (g : α → β) (rs : List (List α)) :
    rs.foldl (fun acc r => acc ++ r.foldl (fun a i => a ++ [g i]) []) [] =
      (rs.map (fun r => r.map g)).flatten := by
  rw [nested_fold_eq_join (fun i => [g i]) rs]
  have h2 : (fun (r : List α) => (r.map (fun i => [g i])).flatten) = fun r => r.map g := by
    funext r
    exact map_singleton_join g r
  rw [h2]

theorem flat_fold_eq_map {α β : Type} (g : α → β) (l : List α) :
    l.foldl (fun a v => a ++ [g v]) [] = l.map g := by
  rw [foldl_append_eq_join (fun v => [g v]) l [], List.nil_append]
  exact map_singleton_join g l

/-! ### Claim theorems -/

/-- Claim C1: whenever the billing query succeeds, the handler returns
status code 200 with the completion message, the aggregated total cost as
the body's number, and a recommendation count equal to the length of the
combined recommendation list — regardless of what the inventory clients or
the SNS client do. -/
theorem handler_success_contract (cfg : Config) (ce : CeClient) (ec2 : Ec2Client)
    (rds : RdsClient) (sns : SnsClient) (results : List (List (String × ℚ)))
    (h : ce.get_cost_and_usage = .ok results) :
    (handler cfg ce ec2 rds sns).1 =
      { statusCode := 200
        body := .success "Cost optimization analysis completed"
          (aggregate_costs results).2
          (allRecommendations cfg ec2 rds (aggregate_costs results).1).length } := by
  simp only [handler, h]

/-- Claim C2: whenever the billing query raises, the handler returns status
code 500 with the exception text as the error body and attempts no SNS
publish, and the whole result is independent of the inventory and SNS
collaborators (none of the analyzers, the formatter, or the notifier
contributes anything). -/
theorem handler_billing_failure_contract (cfg : Config) (ce : CeClient) (ec2 : Ec2Client)
    (rds : RdsClient) (sns : SnsClient) (e : String)
    (h : ce.get_cost_and_usage = .error e) :
    handler cfg ce ec2 rds sns = ({ statusCode := 500, body := .error e }, []) ∧
    (∀ ec2' : Ec2Client, ∀ rds' : RdsClient, ∀ sns' : SnsClient,
      handler cfg ce ec2' rds' sns' = handler cfg ce ec2 rds sns) := by
  constructor
  · simp only [handler, h]
  · intro ec2' rds' sns'
    simp only [handler, h]

/-! ### Concrete fixtures used by witnesses and counterexamples -/

/-- A concrete configuration. -/
def wCfg : Config :=
  ⟨"apex", "prod", "arn:aws:sns:us-east-1:123456789012:alerts", "2026-10-12 00:00:00"⟩

/-- A concrete successful billing response: one time bucket, two services. -/
def wResults : List (List (String × ℚ)) :=
  [[("Amazon Elastic Compute Cloud - Compute", 150), ("Amazon Simple Storage Service", 10)]]

/-- A cost-explorer client whose query succeeds with `wResults`. -/
def wCe : CeClient := ⟨.ok wResults⟩

/-- A cost-explorer client whose query raises. -/
def wCeFail : CeClient := ⟨.error "billing exploded"⟩

/-- An EC2 client answering every query: one running/stopped `m5.xlarge`
on-demand instance and one 50 GB available volume. -/
def wEc2 : Ec2Client :=
  ⟨fun _ => .ok [[⟨"i-0abc", "m5.xlarge", none⟩]], fun _ => .ok [⟨"vol-0abc", 50⟩]⟩

/-- An RDS client with one `db.r5.xlarge` instance retaining backups 14 days. -/
def wRds : RdsClient := ⟨.ok [⟨"db-0abc", "db.r5.xlarge", some 14⟩]⟩

/-- An SNS client whose publish succeeds. -/
def wSns : SnsClient := ⟨.ok ()⟩

/-- An SNS client whose publish raises. -/
def wSnsFail : SnsClient := ⟨.error "sns unavailable"⟩

/-- An EC2 client whose instance queries succeed (one stopped `t3.micro`)
but whose volume query raises. -/
def cexEc2 : Ec2Client :=
  ⟨fun _ => .ok [[⟨"i-stopped-1", "t3.micro", none⟩]], fun _ => .error "volumes query failed"⟩

/-- An EC2 client whose every query raises. -/
def ec2AllFail : Ec2Client :=
  ⟨fun _ => .error "ec2 unavailable", fun _ => .error "ec2 unavailable"⟩

/-- An RDS client whose query raises. -/
def wRdsFail : RdsClient := ⟨.error "rds unavailable"⟩

/-- A cost mapping exceeding both the EC2 (100) and RDS (50) thresholds. -/
def wCosts : List (String × ℚ) :=
  [("Amazon Elastic Compute Cloud - Compute", 150), ("Amazon Relational Database Service", 60)]

/-- Witness for C1 at a concrete invocation: billing succeeds with total 160
and the four analyzers contribute 4 recommendations. -/
theorem handler_success_contract_holds :
    wCe.get_cost_and_usage = .ok wResults ∧
    (handler wCfg wCe wEc2 wRds wSns).1 =
      { statusCode := 200
        body := .success "Cost optimization analysis completed" 160 4 } :=
  ⟨rfl, (handler_success_contract wCfg wCe wEc2 wRds wSns wResults rfl).trans (by with_unfolding_all decide)⟩

/-- Witness for C2 at a concrete invocation with a failing billing query. -/
theorem handler_billing_failure_contract_holds :
    wCeFail.get_cost_and_usage = .error "billing exploded" ∧
    handler wCfg wCeFail wEc2 wRds wSns =
      ({ statusCode := 500, body := .error "billing exploded" }, []) :=
  ⟨rfl, (handler_billing_failure_contract wCfg wCeFail wEc2 wRds wSns "billing exploded" rfl).1⟩

/-- Counterexample to C3 as stated: in `check_unused_resources` one `try`
block wraps both inventory queries, so when the stopped-instances query
succeeds (one instance) and the volumes query raises, the analyzer returns
the one stopped-instance recommendation — not an empty list. -/
theorem unused_analyzer_nonempty_on_volume_failure :
    cexEc2.describe_volumes (availableVolumesFilters "apex") = .error "volumes query failed" ∧
    check_unused_resources "apex" cexEc2 wRds =
      [stoppedInstanceRec ⟨"i-stopped-1", "t3.micro", none⟩] ∧
    check_unused_resources "apex" cexEc2 wRds ≠ [] :=
  ⟨rfl, rfl, by with_unfolding_all decide⟩

/-- Claim C3 (amended): each analyzer catches its inventory-query failures
locally and the run continues; the compute and database analyzers then
return an empty list, as does the unused-resource analyzer when its first
(stopped-instances) query fails, but when only its second (volumes) query
fails it returns the stopped-instance recommendations accumulated before
the failure. -/
theorem analyzer_failure_isolation (p : String) (ec2 ec2' : Ec2Client) (rds : RdsClient)
    (cfg : Config) (ce : CeClient) (sns : SnsClient)
    (costs : List (String × ℚ)) (results : List (List (String × ℚ)))
    (e1 e2 e3 e4 : String) (rs : List (List Instance))
    (hc1 : costGet costs "Amazon Elastic Compute Cloud - Compute" > 100)
    (hc2 : costGet costs "Amazon Relational Database Service" > 50)
    (h1 : ec2.describe_instances (runningInstancesFilters p) = .error e1)
    (h2 : rds.describe_db_instances = .error e2)
    (h3 : ec2.describe_instances (stoppedInstancesFilters p) = .error e3)
    (h4 : ec2'.describe_instances (stoppedInstancesFilters p) = .ok rs)
    (h5 : ec2'.describe_volumes (availableVolumesFilters p) = .error e4)
    (hce : ce.get_cost_and_usage = .ok results) :
    analyze_ec2_costs p ec2 costs = [] ∧
    analyze_rds_costs rds costs = [] ∧
    check_unused_resources p ec2 rds = [] ∧
    check_unused_resources p ec2' rds = (rs.map (fun r => r.map stoppedInstanceRec)).flatten ∧
    (handler cfg ce ec2 rds sns).1.statusCode = 200 := by
  refine ⟨?_, ?_, ?_, ?_, ?_⟩
  · simp only [analyze_ec2_costs, if_pos hc1, h1]
  · simp only [analyze_rds_costs, if_pos hc2, h2]
  · simp only [check_unused_resources, h3]
  · simp only [check_unused_resources, h4, h5]
    exact singleton_fold_eq_map stoppedInstanceRec rs
  · simp only [handler, hce]

/-- A cost mapping below the EC2 threshold. -/
def wCostsLow : List (String × ℚ) := [("Amazon Elastic Compute Cloud - Compute", 80)]

/-- Witness for the amended C3 at concrete clients: both thresholds exceeded,
every failing query concrete. -/
theorem analyzer_failure_isolation_holds :
    costGet wCosts "Amazon Elastic Compute Cloud - Compute" > 100 ∧
    costGet wCosts "Amazon Relational Database Service" > 50 ∧
    analyze_ec2_costs "apex" ec2AllFail wCosts = [] ∧
    analyze_rds_costs wRdsFail wCosts = [] ∧
    check_unused_resources "apex" ec2AllFail wRdsFail = [] ∧
    check_unused_resources "apex" cexEc2 wRdsFail =
      [stoppedInstanceRec ⟨"i-stopped-1", "t3.micro", none⟩] ∧
    (handler wCfg wCe ec2AllFail wRdsFail wSns).1.statusCode = 200 :=
  have h := analyzer_failure_isolation "apex" ec2AllFail cexEc2 wRdsFail wCfg wCe wSns
    wCosts wResults "ec2 unavailable" "rds unavailable" "ec2 unavailable" "volumes query failed"
    [[⟨"i-stopped-1", "t3.micro", none⟩]]
    (by with_unfolding_all decide) (by with_unfolding_all decide) rfl rfl rfl rfl rfl rfl
  ⟨by with_unfolding_all decide, by with_unfolding_all decide,
   h.1, h.2.1, h.2.2.1, h.2.2.2.1.trans rfl, h.2.2.2.2⟩

/-- Claim C4: the compute analyzer yields nothing when the EC2 cost does not
strictly exceed 100 (it does not even query the inventory); per instance, a
`m5.large`/`m5.xlarge` non-spot instance yields exactly 2 recommendations, a
non-large spot instance yields 0, and in general the two checks contribute
independently (0, 1, or 2 recommendations per instance). -/
theorem ec2_threshold_and_instance_checks
    (p : String) (ec2 : Ec2Client) (costs : List (String × ℚ)) (inst inst2 : Instance)
    (hle : costGet costs "Amazon Elastic Compute Cloud - Compute" ≤ 100)
    (hlarge : strStartsWith inst.instanceType "m5.large" = true ∨
      strStartsWith inst.instanceType "m5.xlarge" = true)
    (hnospot : inst.spotInstanceRequestId = none)
    (hnotlarge1 : strStartsWith inst2.instanceType "m5.large" = false)
    (hnotlarge2 : strStartsWith inst2.instanceType "m5.xlarge" = false)
    (hspot : inst2.spotInstanceRequestId ≠ none) :
    analyze_ec2_costs p ec2 costs = [] ∧
    (ec2InstanceRecs inst).length = 2 ∧
    ec2InstanceRecs inst2 = [] ∧
    (∀ i : Instance, (ec2InstanceRecs i).length =
      (if strStartsWith i.instanceType "m5.large" || strStartsWith i.instanceType "m5.xlarge" then 1 else 0) +
      (if i.spotInstanceRequestId = none then 1 else 0)) := by
  refine ⟨?_, ?_, ?_, ?_⟩
  · simp only [analyze_ec2_costs, if_neg (not_lt.mpr hle)]
  · rcases hlarge with h | h <;> simp [ec2InstanceRecs, h, hnospot]
  · simp [ec2InstanceRecs, hnotlarge1, hnotlarge2, hspot]
  · intro i
    by_cases hs : i.spotInstanceRequestId = none <;>
      cases hb : (strStartsWith i.instanceType "m5.large" || strStartsWith i.instanceType "m5.xlarge") <;>
        simp [ec2InstanceRecs, hs, hb]

/-- Witness for C4: a below-threshold mapping and two concrete instances. -/
theorem ec2_threshold_and_instance_checks_holds :
    costGet wCostsLow "Amazon Elastic Compute Cloud - Compute" ≤ 100 ∧
    analyze_ec2_costs "apex" wEc2 wCostsLow = [] ∧
    (ec2InstanceRecs ⟨"i-0abc", "m5.xlarge", none⟩).length = 2 ∧
    ec2InstanceRecs ⟨"i-spot", "t3.micro", some "sir-123"⟩ = [] :=
  have h := ec2_threshold_and_instance_checks "apex" wEc2 wCostsLow
    ⟨"i-0abc", "m5.xlarge", none⟩ ⟨"i-spot", "t3.micro", some "sir-123"⟩
    (by with_unfolding_all decide) (Or.inr (by decide)) rfl (by decide) (by decide) (by decide)
  ⟨by with_unfolding_all decide, h.1, h.2.1, h.2.2.1⟩

/-- Claim C5: a database instance retaining backups exactly 7 days yields no
backup-retention recommendation; 8 days yields exactly one, whose recorded
current retention is the text "8 days", which contains "8 days". -/
theorem rds_backup_retention_boundary (db7 db8 : DBInstance)
    (h7 : db7.backupRetentionPeriod = some 7)
    (h8 : db8.backupRetentionPeriod = some 8) :
    (rdsInstanceRecs db7).filter (fun r => r.type == "RDS_BACKUP_OPTIMIZATION") = [] ∧
    (rdsInstanceRecs db8).filter (fun r => r.type == "RDS_BACKUP_OPTIMIZATION") =
      [{ type := "RDS_BACKUP_OPTIMIZATION"
         resource := some db8.dbInstanceIdentifier
         current_retention := some "8 days"
         recommendation := "Consider reducing backup retention period if not required for compliance"
         potential_savings := some "Reduce backup storage costs" }] ∧
    ((rdsInstanceRecs db8).filter (fun r => r.type == "RDS_BACKUP_OPTIMIZATION")).all
      (fun r => match r.current_retention with
        | some s => strContains s "8 days"
        | none => false) = true := by
  have hne : (("RDS_RIGHTSIZING" : String) == "RDS_BACKUP_OPTIMIZATION") = false := by decide
  have heq : (("RDS_BACKUP_OPTIMIZATION" : String) == "RDS_BACKUP_OPTIMIZATION") = true := by decide
  have hdays : toString (8 : ℕ) ++ " days" = "8 days" := by decide
  have h1 : (rdsInstanceRecs db7).filter (fun r => r.type == "RDS_BACKUP_OPTIMIZATION") = [] := by
    cases hL : (strContains db7.dbInstanceClass "large" || strContains db7.dbInstanceClass "xlarge") <;>
      simp [rdsInstanceRecs, h7, hL, List.filter, hne]
  have h2 : (rdsInstanceRecs db8).filter (fun r => r.type == "RDS_BACKUP_OPTIMIZATION") =
      [{ type := "RDS_BACKUP_OPTIMIZATION"
         resource := some db8.dbInstanceIdentifier
         current_retention := some "8 days"
         recommendation := "Consider reducing backup retention period if not required for compliance"
         potential_savings := some "Reduce backup storage costs" }] := by
    cases hL : (strContains db8.dbInstanceClass "large" || strContains db8.dbInstanceClass "xlarge") <;>
      simp [rdsInstanceRecs, h8, hL, List.filter, hne, heq, hdays]
  refine ⟨h1, h2, ?_⟩
  rw [h2]
  simp only [List.all_cons, List.all_nil, Bool.and_true]
  decide

/-- Witness for C5 at two concrete database instances (retention 7 and 8). -/
theorem rds_backup_retention_boundary_holds :
    (⟨"db-7", "db.t3.micro", some 7⟩ : DBInstance).backupRetentionPeriod = some 7 ∧
    (rdsInstanceRecs ⟨"db-7", "db.t3.micro", some 7⟩).filter
      (fun r => r.type == "RDS_BACKUP_OPTIMIZATION") = [] ∧
    (rdsInstanceRecs ⟨"db-8", "db.t3.micro", some 8⟩).filter
      (fun r => r.type == "RDS_BACKUP_OPTIMIZATION") =
      [{ type := "RDS_BACKUP_OPTIMIZATION"
         resource := some "db-8"
         current_retention := some "8 days"
         recommendation := "Consider reducing backup retention period if not required for compliance"
         potential_savings := some "Reduce backup storage costs" }] :=
  have h := rds_backup_retention_boundary ⟨"db-7", "db.t3.micro", some 7⟩
    ⟨"db-8", "db.t3.micro", some 8⟩ rfl rfl
  ⟨rfl, h.1, h.2.1⟩

/-- Claim C6: a publish is attempted if and only if the combined
recommendation list is non-empty; the attempted publish carries exactly the
derived subject and the configured topic; and the handler's response is the
same whatever the SNS client's publish outcome is (a publish failure is
caught and does not change the successful return). -/
theorem notifier_invocation_contract (cfg : Config) (ce : CeClient) (ec2 : Ec2Client)
    (rds : RdsClient) (sns sns' : SnsClient) (results : List (List (String × ℚ)))
    (h : ce.get_cost_and_usage = .ok results) :
    ((handler cfg ce ec2 rds sns).2 ≠ [] ↔
      allRecommendations cfg ec2 rds (aggregate_costs results).1 ≠ []) ∧
    (handler cfg ce ec2 rds sns).2 =
      (if (allRecommendations cfg ec2 rds (aggregate_costs results).1).isEmpty then []
       else [⟨cfg.sns_topic_arn,
              notificationSubject cfg.project_name cfg.environment,
              generate_cost_report cfg.project_name cfg.environment cfg.now
                (aggregate_costs results).1 (aggregate_costs results).2
                (allRecommendations cfg ec2 rds (aggregate_costs results).1)⟩]) ∧
    (handler cfg ce ec2 rds sns).1 = (handler cfg ce ec2 rds sns').1 := by
  refine ⟨?_, ?_, ?_⟩
  · simp only [handler, h, send_notification]
    cases hE : (allRecommendations cfg ec2 rds (aggregate_costs results).1).isEmpty <;>
      simp_all
  · simp only [handler, h, send_notification]
  · simp only [handler, h]

/-- Witness for C6 at a concrete invocation producing four recommendations,
comparing a succeeding and a failing SNS client. -/
theorem notifier_invocation_contract_holds :
    wCe.get_cost_and_usage = .ok wResults ∧
    ((handler wCfg wCe wEc2 wRds wSns).2 ≠ [] ↔
      allRecommendations wCfg wEc2 wRds (aggregate_costs wResults).1 ≠ []) ∧
    (handler wCfg wCe wEc2 wRds wSns).1 = (handler wCfg wCe wEc2 wRds wSnsFail).1 ∧
    (handler wCfg wCe wEc2 wRds wSns).2.map Publish.subject =
      ["Cost Optimization Report - apex (prod)"] :=
  have h := notifier_invocation_contract wCfg wCe wEc2 wRds wSns wSnsFail wResults rfl
  ⟨rfl, h.1, h.2.2, by with_unfolding_all decide⟩

/-- Claim C7: the handler's combined recommendation list (whose length is the
reported count) is the concatenation, in fixed order, of the compute,
database, storage, and unused-resource analyzer outputs; within the compute
and database analyzers the recommendations are the order-preserving
concatenation of the per-instance outputs in the inventory query's return
order, and likewise per stopped instance and per volume in the
unused-resource analyzer — no sorting or reordering anywhere. -/
theorem recommendation_ordering (cfg : Config) (ce : CeClient) (ec2 : Ec2Client)
    (rds : RdsClient) (sns : SnsClient) (results : List (List (String × ℚ)))
    (rs rs2 : List (List Instance)) (dbs : List DBInstance) (vols : List Volume)
    (h : ce.get_cost_and_usage = .ok results)
    (hec2 : costGet (aggregate_costs results).1 "Amazon Elastic Compute Cloud - Compute" > 100)
    (hrds : costGet (aggregate_costs results).1 "Amazon Relational Database Service" > 50)
    (hrun : ec2.describe_instances (runningInstancesFilters cfg.project_name) = .ok rs)
    (hdbs : rds.describe_db_instances = .ok dbs)
    (hstop : ec2.describe_instances (stoppedInstancesFilters cfg.project_name) = .ok rs2)
    (hvol : ec2.describe_volumes (availableVolumesFilters cfg.project_name) = .ok vols) :
    (handler cfg ce ec2 rds sns).1.body =
      .success "Cost optimization analysis completed" (aggregate_costs results).2
        (analyze_ec2_costs cfg.project_name ec2 (aggregate_costs results).1 ++
         analyze_rds_costs rds (aggregate_costs results).1 ++
         analyze_storage_costs (aggregate_costs results).1 ++
         check_unused_resources cfg.project_name ec2 rds).length ∧
    analyze_ec2_costs cfg.project_name ec2 (aggregate_costs results).1 =
      (rs.map (fun r => (r.map ec2InstanceRecs).flatten)).flatten ∧
    analyze_rds_costs rds (aggregate_costs results).1 =
      (dbs.map rdsInstanceRecs).flatten ∧
    check_unused_resources cfg.project_name ec2 rds =
      (rs2.map (fun r => r.map stoppedInstanceRec)).flatten ++ vols.map volumeRec := by
  refine ⟨?_, ?_, ?_, ?_⟩
  · simp only [handler, h, allRecommendations]
  · simp only [analyze_ec2_costs, if_pos hec2, hrun]
    exact nested_fold_eq_join ec2InstanceRecs rs
  · simp only [analyze_rds_costs, if_pos hrds, hdbs]
    exact (foldl_append_eq_join rdsInstanceRecs dbs []).trans (List.nil_append _)
  · simp only [check_unused_resources, hstop, hvol]
    rw [singleton_fold_eq_map, flat_fold_eq_map]

/-- A billing response exceeding the EC2, RDS, and S3 thresholds. -/
def wResults2 : List (List (String × ℚ)) :=
  [[("Amazon Elastic Compute Cloud - Compute", 150),
    ("Amazon Relational Database Service", 60),
    ("Amazon Simple Storage Service", 25)]]

/-- A cost-explorer client answering with `wResults2`. -/
def wCe2 : CeClient := ⟨.ok wResults2⟩

/-- Witness for C7 at a concrete invocation in which all four analyzers and
all three inventory queries run. -/
theorem recommendation_ordering_holds :
    costGet (aggregate_costs wResults2).1 "Amazon Elastic Compute Cloud - Compute" > 100 ∧
    costGet (aggregate_costs wResults2).1 "Amazon Relational Database Service" > 50 ∧
    (handler wCfg wCe2 wEc2 wRds wSns).1.body =
      .success "Cost optimization analysis completed" (aggregate_costs wResults2).2
        (analyze_ec2_costs "apex" wEc2 (aggregate_costs wResults2).1 ++
         analyze_rds_costs wRds (aggregate_costs wResults2).1 ++
         analyze_storage_costs (aggregate_costs wResults2).1 ++
         check_unused_resources "apex" wEc2 wRds).length ∧
    analyze_ec2_costs "apex" wEc2 (aggregate_costs wResults2).1 =
      ([[⟨"i-0abc", "m5.xlarge", none⟩]].map (fun r => (r.map ec2InstanceRecs).flatten)).flatten ∧
    analyze_rds_costs wRds (aggregate_costs wResults2).1 =
      ([⟨"db-0abc", "db.r5.xlarge", some 14⟩].map rdsInstanceRecs).flatten ∧
    check_unused_resources "apex" wEc2 wRds =
      ([[⟨"i-0abc", "m5.xlarge", none⟩]].map (fun r => r.map stoppedInstanceRec)).flatten ++
        [⟨"vol-0abc", 50⟩].map volumeRec :=
  have h := recommendation_ordering wCfg wCe2 wEc2 wRds wSns wResults2
    [[⟨"i-0abc", "m5.xlarge", none⟩]] [[⟨"i-0abc", "m5.xlarge", none⟩]]
    [⟨"db-0abc", "db.r5.xlarge", some 14⟩] [⟨"vol-0abc", 50⟩]
    rfl (by with_unfolding_all decide) (by with_unfolding_all decide) rfl rfl rfl rfl
  ⟨by with_unfolding_all decide, by with_unfolding_all decide, h.1, h.2.1, h.2.2.1, h.2.2.2⟩

/-- Claim C8: with a positive total, the printed per-service percentage is
`cost / total * 100` formatted to one decimal place (half-even, as Python's
`Decimal` formatting rounds); with a zero total the percentage is the
constant 0 (printed `0.0`), with no division; on the mapping
`ComputeService = 150, StorageService = 10` (total 160) the printed lines
show `93.8%` and `6.2%`. -/
theorem percentage_rounding (total c : ℚ) (s : String) (hpos : total > 0) :
    serviceLine total (s, c) =
      "  • " ++ s ++ ": $" ++ fmt2 c ++ " (" ++ fmt1 (c / total * 100) ++ "%)\n" ∧
    serviceLine 0 (s, c) = "  • " ++ s ++ ": $" ++ fmt2 c ++ " (" ++ fmt1 0 ++ "%)\n" ∧
    fmt1 0 = "0.0" ∧
    topServiceLines [("ComputeService", 150), ("StorageService", 10)] 160 =
      ["  • ComputeService: $150.00 (93.8%)\n", "  • StorageService: $10.00 (6.2%)\n"] := by
  refine ⟨?_, ?_, ?_, ?_⟩
  · simp only [serviceLine, if_pos hpos]
  · simp only [serviceLine, if_neg (lt_irrefl (0 : ℚ))]
  · with_unfolding_all decide
  · with_unfolding_all decide

/-- Witness for C8 at the concrete scenario of the spec (total 160). -/
theorem percentage_rounding_holds :
    (160 : ℚ) > 0 ∧
    serviceLine 160 ("ComputeService", 150) = "  • ComputeService: $150.00 (93.8%)\n" :=
  have h := percentage_rounding 160 150 "ComputeService" (by with_unfolding_all decide)
  ⟨by with_unfolding_all decide, h.1.trans (by with_unfolding_all decide)⟩

/-- Claim C9: each of the three compute-inventory queries (running
instances, stopped instances, available volumes) carries a `tag:Project`
filter whose value list is exactly the configured project identifier.
The Terraform rendering of the `${project_name}` placeholder is modelled
per the spec as the project identifier itself. -/
theorem inventory_queries_filter_by_project (p : String) :
    (⟨"tag:Project", [p]⟩ : Filter) ∈ runningInstancesFilters p ∧
    (⟨"tag:Project", [p]⟩ : Filter) ∈ stoppedInstancesFilters p ∧
    (⟨"tag:Project", [p]⟩ : Filter) ∈ availableVolumesFilters p := by
  refine ⟨?_, ?_, ?_⟩ <;>
    simp [runningInstancesFilters, stoppedInstancesFilters, availableVolumesFilters]

/-- Claim C10: a database instance record lacking the backup-retention field
is treated as retention 0: the analyzer output is the same as with an
explicit 0, contains no backup-retention recommendation, and is exactly the
outcome of the unchanged rightsizing check. -/
theorem missing_retention_defaults_to_zero (db : DBInstance)
    (h : db.backupRetentionPeriod = none) :
    rdsInstanceRecs db = rdsInstanceRecs { db with backupRetentionPeriod := some 0 } ∧
    (rdsInstanceRecs db).filter (fun r => r.type == "RDS_BACKUP_OPTIMIZATION") = [] ∧
    rdsInstanceRecs db =
      (if strContains db.dbInstanceClass "large" || strContains db.dbInstanceClass "xlarge" then
        [{ type := "RDS_RIGHTSIZING"
           resource := some db.dbInstanceIdentifier
           current_class := some db.dbInstanceClass
           recommendation := "Monitor CPU and memory utilization to determine if downsizing is possible"
           potential_savings := some "Up to 40% cost reduction" }]
       else []) := by
  have hne : (("RDS_RIGHTSIZING" : String) == "RDS_BACKUP_OPTIMIZATION") = false := by decide
  refine ⟨?_, ?_, ?_⟩
  · simp [rdsInstanceRecs, h]
  · cases hL : (strContains db.dbInstanceClass "large" || strContains db.dbInstanceClass "xlarge") <;>
      simp [rdsInstanceRecs, h, hL, List.filter, hne]
  · simp [rdsInstanceRecs, h]

/-- Witness for C10 at a concrete retention-less `db.m5.large` instance. -/
theorem missing_retention_defaults_to_zero_holds :
    (⟨"db-legacy", "db.m5.large", none⟩ : DBInstance).backupRetentionPeriod = none ∧
    rdsInstanceRecs ⟨"db-legacy", "db.m5.large", none⟩ =
      rdsInstanceRecs ⟨"db-legacy", "db.m5.large", some 0⟩ ∧
    (rdsInstanceRecs ⟨"db-legacy", "db.m5.large", none⟩).filter
      (fun r => r.type == "RDS_BACKUP_OPTIMIZATION") = [] ∧
    rdsInstanceRecs ⟨"db-legacy", "db.m5.large", none⟩ =
      [{ type := "RDS_RIGHTSIZING"
         resource := some "db-legacy"
         current_class := some "db.m5.large"
         recommendation := "Monitor CPU and memory utilization to determine if downsizing is possible"
         potential_savings := some "Up to 40% cost reduction" }] :=
  have h := missing_retention_defaults_to_zero ⟨"db-legacy", "db.m5.large", none⟩ rfl
  ⟨rfl, h.1, h.2.1, h.2.2.trans (by decide)⟩
